import Mathlib

/-!
Verification development for the availability-tracking and notification core of
`scrape.py` (permit/ferry availability scraper).

The embedding models:
- `send_email` : the notifier shim; returns silently when no recipient is
  configured, otherwise contacts the SMTP transport, which may raise.
- `maybe_send_notification` : the tracker step; computes the delta between the
  fresh snapshot and `skip_notification_date_set`, sends a notification when
  the delta of new labels is non-empty, and commits the new labels afterwards.
- one-iteration models of `permit_loop`, `ferry_reservation_loop` and
  `permit_json_loop`, exposing which external failure points are caught by the
  loop bodies and which sleeps they perform.
- the booking-date selection of `maybe_add_to_cart_and_sleep`.

Sets of labels are `Finset String`; the exceptions of the external collaborators
(SMTP transport, browser driver, HTTP client) are explicit outcome parameters.
Python's `sorted` on a set of strings is modelled by an insertion sort under a
computable code-point lexicographic comparison, proved equivalent to Mathlib's
order on `String`.
-/

namespace PermitScrape

/-- Lexicographic comparison of character lists by code point, mirroring how
Python compares strings. -/
def lexLe : List Char → List Char → Bool
  | [], _ => true
  | _ :: _, [] => false
  | a :: as, b :: bs =>
    if a < b then true
    else if b < a then false
    else lexLe as bs

/-- Lexicographic comparison of strings, as Python's string comparison. -/
def strLe (a b : String) : Bool := lexLe a.data b.data

/-- Propositional form of `strLe`. -/
def strLeP (a b : String) : Prop := strLe a b = true

instance : DecidableRel strLeP := fun a b => instDecidableEqBool (strLe a b) true

theorem lexLe_iff_not_lex (l₁ l₂ : List Char) :
    lexLe l₁ l₂ = true ↔ ¬ List.Lex (· < ·) l₂ l₁ := by
  induction l₁ generalizing l₂ with
  | nil =>
    cases l₂ with
    | nil => exact iff_of_true rfl (fun h => by cases h)
    | cons b bs => exact iff_of_true rfl (fun h => by cases h)
  | cons a as ih =>
    cases l₂ with
    | nil =>
      exact iff_of_false (by simp [lexLe]) (fun h => h List.Lex.nil)
    | cons b bs =>
      by_cases hab : a < b
      · refine iff_of_true (by simp [lexLe, hab]) ?_
        intro h
        cases h with
        | cons h' => exact absurd hab (lt_irrefl _)
        | rel h' => exact absurd hab (lt_asymm h')
      · by_cases hba : b < a
        · refine iff_of_false (by simp [lexLe, hab, hba]) ?_
          exact fun hc => hc (List.Lex.rel hba)
        · have hab' : a = b := le_antisymm (le_of_not_lt hba) (le_of_not_lt hab)
          subst hab'
          have hred : lexLe (a :: as) (a :: bs) = lexLe as bs := by
            simp [lexLe, hab]
          rw [hred, ih bs]
          constructor
          · intro h hlt
            cases hlt with
            | cons h' => exact h h'
            | rel h' => exact absurd h' hab
          · intro h hlt
            exact h (List.Lex.cons hlt)

theorem strLeP_iff (a b : String) : strLeP a b ↔ a ≤ b := by
  rw [← not_lt, String.lt_iff_toList_lt]
  exact lexLe_iff_not_lex a.data b.data

instance : IsTrans String strLeP :=
  ⟨fun a b c h₁ h₂ =>
    (strLeP_iff a c).mpr (le_trans ((strLeP_iff a b).mp h₁) ((strLeP_iff b c).mp h₂))⟩

instance : IsAntisymm String strLeP :=
  ⟨fun a b h₁ h₂ => le_antisymm ((strLeP_iff a b).mp h₁) ((strLeP_iff b a).mp h₂)⟩

instance : IsTotal String strLeP :=
  ⟨fun a b => (le_total a b).imp (strLeP_iff a b).mpr (strLeP_iff b a).mpr⟩

/-- Ascending sorted list of the elements of a finite set of strings; this is
Python's `sorted(s)` for a set `s` of strings. -/
def sortedStrings (s : Finset String) : List String :=
  Quotient.liftOn s.val (fun l => List.insertionSort strLeP l) (fun l₁ l₂ h =>
    List.eq_of_perm_of_sorted
      ((List.perm_insertionSort strLeP l₁).trans
        (h.trans (List.perm_insertionSort strLeP l₂).symm))
      (List.sorted_insertionSort strLeP l₁)
      (List.sorted_insertionSort strLeP l₂))

theorem sortedStrings_coe (s : Finset String) :
    (sortedStrings s : Multiset String) = s.val := by
  rcases s with ⟨m, nd⟩
  induction m using Quotient.inductionOn with
  | h l =>
    show ((List.insertionSort strLeP l : List String) : Multiset String) = _
    exact Quot.sound (List.perm_insertionSort strLeP l)

theorem mem_sortedStrings (s : Finset String) (x : String) :
    x ∈ sortedStrings s ↔ x ∈ s := by
  rw [← Multiset.mem_coe, sortedStrings_coe]
  rfl

theorem sorted_sortedStrings (s : Finset String) :
    List.Sorted (· ≤ ·) (sortedStrings s) := by
  have h : List.Sorted strLeP (sortedStrings s) := by
    rcases s with ⟨m, nd⟩
    induction m using Quotient.inductionOn with
    | h l => exact List.sorted_insertionSort strLeP l
  exact h.imp (fun {a b} hab => (strLeP_iff a b).mp hab)

theorem length_sortedStrings (s : Finset String) :
    (sortedStrings s).length = s.card := by
  have h := congrArg Multiset.card (sortedStrings_coe s)
  simpa using h

theorem nodup_sortedStrings (s : Finset String) : (sortedStrings s).Nodup := by
  have h : Multiset.Nodup (sortedStrings s : Multiset String) := by
    rw [sortedStrings_coe]; exact s.nodup
  exact h

theorem sortedStrings_eq_nil (s : Finset String) (h : s = ∅) :
    sortedStrings s = [] := by
  subst h
  rfl

theorem sortedStrings_length_zero_iff (s : Finset String) :
    (sortedStrings s).length = 0 ↔ s = ∅ := by
  rw [length_sortedStrings]
  exact Finset.card_eq_zero

/-- Failure behaviour of the local SMTP transport used by `send_email`: the
`sendmail` round either completes or raises an exception. -/
inductive SmtpBehavior
  | succeeds
  | raises
deriving DecidableEq

/-- Result of one `send_email` call: whether the message was handed to the SMTP
transport, and whether the call raised an exception to the caller. -/
structure SendResult where
  delivered : Bool
  raised : Bool
deriving DecidableEq

/-- Model of `send_email` (scrape.py lines 96-110): if no `email_addr` flag is
configured it prints and returns without sending; otherwise it contacts the
local SMTP server, which may raise. Subject and body strings carry no logic and
are not modelled. -/
def send_email (email_addr : Option String) (smtp : SmtpBehavior) : SendResult :=
  match email_addr with
  | none => { delivered := false, raised := false }
  | some _ =>
    match smtp with
    | .succeeds => { delivered := true, raised := false }
    | .raises => { delivered := false, raised := true }

/-- Result of one `maybe_send_notification` call: the delta lists it computed,
whether `send_email` was invoked, whether a message was handed to the
transport, whether the call raised an exception to the caller, and the value of
the global `skip_notification_date_set` after the call. -/
structure NotifyResult where
  filtered_dates : List String
  skipped_dates : List String
  sent : Bool
  delivered : Bool
  raised : Bool
  state : Finset String
deriving DecidableEq

/-- Model of `maybe_send_notification` (scrape.py lines 113-123).
`filtered_dates = sorted(date_set - skip_notification_date_set)` and
`skipped_dates = sorted(date_set.intersection(skip_notification_date_set))`;
if no new dates, return with the set unchanged; otherwise call `send_email`
first and only afterwards run `skip_notification_date_set.update(filtered_dates)`,
so an exception from `send_email` leaves the set unchanged. -/
def maybe_send_notification (email_addr : Option String) (smtp : SmtpBehavior)
    (skip_notification_date_set date_set : Finset String) : NotifyResult :=
  if (sortedStrings (date_set \ skip_notification_date_set)).length = 0 then
    { filtered_dates := sortedStrings (date_set \ skip_notification_date_set),
      skipped_dates := sortedStrings (date_set ∩ skip_notification_date_set),
      sent := false, delivered := false, raised := false,
      state := skip_notification_date_set }
  else if (send_email email_addr smtp).raised then
    { filtered_dates := sortedStrings (date_set \ skip_notification_date_set),
      skipped_dates := sortedStrings (date_set ∩ skip_notification_date_set),
      sent := true, delivered := (send_email email_addr smtp).delivered,
      raised := true,
      state := skip_notification_date_set }
  else
    { filtered_dates := sortedStrings (date_set \ skip_notification_date_set),
      skipped_dates := sortedStrings (date_set ∩ skip_notification_date_set),
      sent := true, delivered := (send_email email_addr smtp).delivered,
      raised := false,
      state := skip_notification_date_set ∪
        (date_set \ skip_notification_date_set) }

theorem msn_filtered (e : Option String) (m : SmtpBehavior) (N S : Finset String) :
    (maybe_send_notification e m N S).filtered_dates = sortedStrings (S \ N) := by
  unfold maybe_send_notification
  split
  · rfl
  · split <;> rfl

theorem msn_skipped (e : Option String) (m : SmtpBehavior) (N S : Finset String) :
    (maybe_send_notification e m N S).skipped_dates = sortedStrings (S ∩ N) := by
  unfold maybe_send_notification
  split
  · rfl
  · split <;> rfl

theorem msn_state_superset (e : Option String) (m : SmtpBehavior) (N S : Finset String) :
    N ⊆ (maybe_send_notification e m N S).state := by
  unfold maybe_send_notification
  split
  · exact Finset.Subset.refl N
  · split
    · exact Finset.Subset.refl N
    · exact Finset.subset_union_left

theorem msn_state_sub_union (e : Option String) (m : SmtpBehavior) (N S : Finset String) :
    (maybe_send_notification e m N S).state ⊆ N ∪ S := by
  unfold maybe_send_notification
  split
  · exact Finset.subset_union_left
  · split
    · exact Finset.subset_union_left
    · exact Finset.union_subset Finset.subset_union_left
        (Finset.Subset.trans (Finset.sdiff_subset) Finset.subset_union_right)

theorem msn_raised_state (e : Option String) (m : SmtpBehavior) (N S : Finset String)
    (h : (maybe_send_notification e m N S).raised = true) :
    (maybe_send_notification e m N S).state = N := by
  unfold maybe_send_notification at h ⊢
  split at h
  · simp at h
  · split at h
    · rename_i hlen hr
      rw [if_neg hlen, if_pos hr]
    · simp at h

theorem msn_not_raised_subset (e : Option String) (m : SmtpBehavior) (N S : Finset String)
    (h : (maybe_send_notification e m N S).raised = false) :
    S ⊆ (maybe_send_notification e m N S).state := by
  unfold maybe_send_notification at h ⊢
  split at h
  · rename_i hlen
    rw [if_pos hlen]
    show S ⊆ N
    exact Finset.sdiff_eq_empty_iff_subset.mp ((sortedStrings_length_zero_iff _).mp hlen)
  · split at h
    · simp at h
    · rename_i hlen hr
      rw [if_neg hlen, if_neg hr]
      show S ⊆ N ∪ (S \ N)
      rw [Finset.union_sdiff_self_eq_union]
      exact Finset.subset_union_right

theorem mem_msn_filtered (e : Option String) (m : SmtpBehavior) (N S : Finset String)
    (x : String) :
    x ∈ (maybe_send_notification e m N S).filtered_dates ↔ x ∈ S ∧ x ∉ N := by
  rw [msn_filtered, mem_sortedStrings, Finset.mem_sdiff]

theorem mem_msn_skipped (e : Option String) (m : SmtpBehavior) (N S : Finset String)
    (x : String) :
    x ∈ (maybe_send_notification e m N S).skipped_dates ↔ x ∈ S ∧ x ∈ N := by
  rw [msn_skipped, mem_sortedStrings, Finset.mem_inter]

theorem msn_commit (e : Option String) (m : SmtpBehavior) (N S : Finset String)
    (x : String) (hr : (maybe_send_notification e m N S).raised = false)
    (hx : x ∈ (maybe_send_notification e m N S).filtered_dates) :
    x ∈ (maybe_send_notification e m N S).state :=
  msn_not_raised_subset e m N S hr ((mem_msn_filtered e m N S x).mp hx).1

theorem msn_not_mem_filtered (e : Option String) (m : SmtpBehavior) (N S : Finset String)
    (x : String) (hx : x ∈ N) :
    x ∉ (maybe_send_notification e m N S).filtered_dates := by
  rw [mem_msn_filtered]
  exact fun hc => hc.2 hx

theorem msn_raised_false_of_send (e : Option String) (m : SmtpBehavior)
    (N S : Finset String) (h : (send_email e m).raised = false) :
    (maybe_send_notification e m N S).raised = false := by
  unfold maybe_send_notification
  split
  · rfl
  · rw [if_neg (by rw [h]; exact Bool.false_ne_true)]

theorem msn_empty_branch (e : Option String) (m : SmtpBehavior) (N S : Finset String)
    (h : S \ N = ∅) :
    maybe_send_notification e m N S =
      { filtered_dates := sortedStrings (S \ N),
        skipped_dates := sortedStrings (S ∩ N),
        sent := false, delivered := false, raised := false, state := N } := by
  unfold maybe_send_notification
  rw [if_pos ((sortedStrings_length_zero_iff _).mpr h)]

theorem msn_state_not_raised (e : Option String) (m : SmtpBehavior) (N S : Finset String)
    (hne : S \ N ≠ ∅) (hr : (maybe_send_notification e m N S).raised = false) :
    (maybe_send_notification e m N S).state = N ∪ S := by
  unfold maybe_send_notification at hr ⊢
  split at hr
  · rename_i hlen
    exact absurd ((sortedStrings_length_zero_iff _).mp hlen) hne
  · split at hr
    · exact absurd hr (by simp)
    · rename_i hlen hraise
      rw [if_neg hlen, if_neg hraise]
      exact Finset.union_sdiff_self_eq_union

/-- One call made to `maybe_send_notification` during the life of the process:
the configured recipient, the behaviour of the SMTP transport during that call,
and the snapshot of available labels passed in. -/
structure CallInput where
  email_addr : Option String
  smtp : SmtpBehavior
  date_set : Finset String
deriving DecidableEq

/-- Results of a sequence of `maybe_send_notification` calls, threading the
global `skip_notification_date_set` from each call to the next. -/
def runFrom (s : Finset String) : List CallInput → List NotifyResult
  | [] => []
  | c :: cs =>
    let r := maybe_send_notification c.email_addr c.smtp s c.date_set
    r :: runFrom r.state cs

/-- Value of `skip_notification_date_set` after a sequence of calls. -/
def finalState (s : Finset String) : List CallInput → Finset String
  | [] => s
  | c :: cs =>
    finalState (maybe_send_notification c.email_addr c.smtp s c.date_set).state cs

/-- Union of all labels contained in any snapshot of a sequence of calls. -/
def allLabels : List CallInput → Finset String
  | [] => ∅
  | c :: cs => c.date_set ∪ allLabels cs

/-- Number of calls in a result sequence that completed without raising and
reported label `L` among their new (`filtered_dates`) labels. -/
def notifiedCount (L : String) (rs : List NotifyResult) : Nat :=
  rs.countP (fun r => !r.raised && decide (L ∈ r.filtered_dates))

theorem runFrom_cons (s : Finset String) (c : CallInput) (cs : List CallInput) :
    runFrom s (c :: cs) =
      (maybe_send_notification c.email_addr c.smtp s c.date_set) ::
        runFrom (maybe_send_notification c.email_addr c.smtp s c.date_set).state cs :=
  rfl

theorem mem_runFrom_not_filtered (L : String) (cs : List CallInput) (s : Finset String)
    (hL : L ∈ s) :
    ∀ r ∈ runFrom s cs, L ∉ r.filtered_dates := by
  induction cs generalizing s with
  | nil => intro r hr; cases hr
  | cons c cs ih =>
    intro r hr
    rw [runFrom_cons] at hr
    rcases List.mem_cons.mp hr with h | h
    · subst h
      exact msn_not_mem_filtered c.email_addr c.smtp s c.date_set L hL
    · exact ih _ (msn_state_superset c.email_addr c.smtp s c.date_set hL) r h

theorem notifiedCount_eq_zero (L : String) (cs : List CallInput) (s : Finset String)
    (hL : L ∈ s) : notifiedCount L (runFrom s cs) = 0 := by
  unfold notifiedCount
  rw [List.countP_eq_zero]
  intro r hr
  have h := mem_runFrom_not_filtered L cs s hL r hr
  simp [h]

theorem notifiedCount_le_one (L : String) (cs : List CallInput) (s : Finset String) :
    notifiedCount L (runFrom s cs) ≤ 1 := by
  induction cs generalizing s with
  | nil => simp [notifiedCount, runFrom]
  | cons c cs ih =>
    rw [runFrom_cons]
    unfold notifiedCount
    rw [List.countP_cons]
    by_cases hp : (!(maybe_send_notification c.email_addr c.smtp s c.date_set).raised &&
        decide (L ∈ (maybe_send_notification c.email_addr c.smtp s c.date_set).filtered_dates)) = true
    · rcases Bool.and_eq_true_iff.mp hp with ⟨hr, hmem⟩
      have hr' : (maybe_send_notification c.email_addr c.smtp s c.date_set).raised = false := by
        simpa using hr
      have hmem' : L ∈ (maybe_send_notification c.email_addr c.smtp s c.date_set).filtered_dates :=
        of_decide_eq_true hmem
      have hstate : L ∈ (maybe_send_notification c.email_addr c.smtp s c.date_set).state :=
        msn_commit c.email_addr c.smtp s c.date_set L hr' hmem'
      have hz := notifiedCount_eq_zero L cs _ hstate
      unfold notifiedCount at hz
      rw [hz, hp]
      simp
    · rw [if_neg hp]
      have := ih (maybe_send_notification c.email_addr c.smtp s c.date_set).state
      unfold notifiedCount at this
      simpa using this

theorem finalState_superset (cs : List CallInput) (s : Finset String) :
    s ⊆ finalState s cs := by
  induction cs generalizing s with
  | nil => exact Finset.Subset.refl s
  | cons c cs ih =>
    exact Finset.Subset.trans
      (msn_state_superset c.email_addr c.smtp s c.date_set)
      (ih _)

theorem finalState_sub (cs : List CallInput) (s : Finset String) :
    finalState s cs ⊆ s ∪ allLabels cs := by
  induction cs generalizing s with
  | nil => simp [finalState, allLabels]
  | cons c cs ih =>
    refine Finset.Subset.trans (ih _) ?_
    refine Finset.union_subset ?_ ?_
    · refine Finset.Subset.trans (msn_state_sub_union c.email_addr c.smtp s c.date_set) ?_
      intro x hx
      rcases Finset.mem_union.mp hx with h | h
      · exact Finset.mem_union_left _ h
      · exact Finset.mem_union_right _ (by
          show x ∈ c.date_set ∪ allLabels cs
          exact Finset.mem_union_left _ h)
    · intro x hx
      exact Finset.mem_union_right _ (by
        show x ∈ c.date_set ∪ allLabels cs
        exact Finset.mem_union_right _ hx)

/-- Outcome of one iteration of a polling loop body: either the loop continues
after having slept for the stated number of seconds, or an uncaught exception
propagates and the loop (and process) terminates, or the body enters the
post-booking hold loop and normal polling never resumes. -/
inductive IterOutcome
  | continued (sleep_secs : Nat)
  | crashed
  | bookingHold
deriving DecidableEq

/-- Behaviour of the `maybe_add_to_cart_and_sleep` step inside `permit_loop`:
it either returns without booking (no requested date available), raises an
exception from one of its browser actions, or succeeds and enters its endless
add-to-cart/modify hold loop. -/
inductive BookStep
  | noDate
  | raises
  | holdLoop
deriving DecidableEq

/-- Model of one iteration of `permit_loop` (scrape.py lines 199-247).
`driver.get` runs before the try-block, so an exception there propagates and
terminates the loop. `scrape` is the outcome of the guarded block
(`select_permit_options`, reading the table, `maybe_send_notification`):
`none` means some step before the notification raised; any exception inside the
block - including one from `send_email` - is caught and answered by a one
second sleep. The separate booking try-block answers an exception with a 600
second sleep; otherwise the loop sleeps `scrape_interval_secs`. -/
def permit_loop_iter (scrape_interval_secs : Nat) (get_raises : Bool)
    (scrape : Option (Finset String)) (email_addr : Option String)
    (smtp : SmtpBehavior) (book : BookStep)
    (skip_notification_date_set : Finset String) : IterOutcome × Finset String :=
  if get_raises then (.crashed, skip_notification_date_set)
  else
    match scrape with
    | none => (.continued 1, skip_notification_date_set)
    | some snapshot =>
      let r := maybe_send_notification email_addr smtp skip_notification_date_set snapshot
      if r.raised then (.continued 1, r.state)
      else
        match book with
        | .raises => (.continued 600, r.state)
        | .holdLoop => (.bookingHold, r.state)
        | .noDate => (.continued scrape_interval_secs, r.state)

/-- Model of one iteration of `ferry_reservation_loop` (scrape.py lines
287-316). `parse` is the outcome of the guarded block reading and parsing the
schedule cells: `none` means it raised, answered by a 60 second sleep.
`maybe_send_notification` runs outside the try-block, so an exception from
`send_email` propagates and terminates the loop; so does an exception from the
end-of-cycle refresh element lookup/click, which happens after sleeping
`scrape_interval_secs` and is followed by a fixed 2 second sleep. -/
def ferry_reservation_loop_iter (scrape_interval_secs : Nat)
    (parse : Option (Finset String)) (email_addr : Option String)
    (smtp : SmtpBehavior) (refresh_raises : Bool)
    (skip_notification_date_set : Finset String) : IterOutcome × Finset String :=
  match parse with
  | none => (.continued 60, skip_notification_date_set)
  | some times_available =>
    let r := maybe_send_notification email_addr smtp skip_notification_date_set times_available
    if r.raised then (.crashed, r.state)
    else if refresh_raises then (.crashed, r.state)
    else (.continued (scrape_interval_secs + 2), r.state)

/-- Outcome of querying one month inside `permit_json_loop`: the HTTP GET may
raise (caught: sleep 60 seconds, move to the next month), return a non-200
status (move to the next month), or return a response whose JSON decoding or
payload key access raises outside the try-block; otherwise it yields the set of
dates with remaining availability. -/
inductive MonthFetch
  | getRaises
  | badStatus
  | parseRaises
  | ok (dates : Finset String)
deriving DecidableEq

/-- Accumulate the per-month results of `permit_json_loop`: `none` means an
uncaught exception (JSON decode or payload key access); otherwise the total
backoff sleep from caught GET failures and the union of the collected dates. -/
def collect_months : List MonthFetch → Option (Nat × Finset String)
  | [] => some (0, ∅)
  | mf :: ms =>
    match mf with
    | .getRaises => (collect_months ms).map (fun p => (p.1 + 60, p.2))
    | .badStatus => collect_months ms
    | .parseRaises => none
    | .ok dates => (collect_months ms).map (fun p => (p.1, dates ∪ p.2))

/-- Model of one iteration of `permit_json_loop` (scrape.py lines 319-357).
After the per-month queries, `maybe_send_notification` runs outside any
try-block, so an exception from `send_email` propagates and terminates the
loop; otherwise the loop sleeps `scrape_interval_secs` (in addition to any
per-month backoff sleeps already performed). -/
def permit_json_loop_iter (scrape_interval_secs : Nat) (months : List MonthFetch)
    (email_addr : Option String) (smtp : SmtpBehavior)
    (skip_notification_date_set : Finset String) : IterOutcome × Finset String :=
  match collect_months months with
  | none => (.crashed, skip_notification_date_set)
  | some (backoff, available_date_set) =>
    let r := maybe_send_notification email_addr smtp skip_notification_date_set
      available_date_set
    if r.raised then (.crashed, r.state)
    else (.continued (backoff + scrape_interval_secs), r.state)

theorem collect_months_some (ms : List MonthFetch) (h : MonthFetch.parseRaises ∉ ms) :
    ∃ p : Nat × Finset String, collect_months ms = some p := by
  induction ms with
  | nil => exact ⟨(0, ∅), rfl⟩
  | cons mf ms ih =>
    have hmf : mf ≠ MonthFetch.parseRaises := fun hc => h (hc ▸ List.mem_cons_self mf ms)
    have hms : MonthFetch.parseRaises ∉ ms := fun hc => h (List.mem_cons_of_mem mf hc)
    rcases ih hms with ⟨p, hp⟩
    cases mf with
    | getRaises => exact ⟨(p.1 + 60, p.2), by simp [collect_months, hp]⟩
    | badStatus => exact ⟨p, by simp [collect_months, hp]⟩
    | parseRaises => exact absurd rfl hmf
    | ok dates => exact ⟨(p.1, dates ∪ p.2), by simp [collect_months, hp]⟩

/-- List of the keys of the availability map, in insertion order; the map sent
to `maybe_add_to_cart_and_sleep` maps an `MM/DD` label to the xpath handle of
its calendar cell. -/
def availability_keys (availability_map : List (String × String)) : List String :=
  availability_map.map Prod.fst

/-- Model of the booking-date selection of `maybe_add_to_cart_and_sleep`
(scrape.py lines 149-161): on an empty map it returns immediately; otherwise it
walks `permit_dates_to_add_to_cart` in order and books the first date present
in the map, returning without any booking action when none is present. The
returned value is the date the function proceeds to book, `none` when it
returns without booking. The subsequent browser actions are external effects
outside this model. -/
def maybe_add_to_cart_and_sleep (permit_dates_to_add_to_cart : List String)
    (availability_map : List (String × String)) : Option String :=
  if availability_map.length = 0 then none
  else
    permit_dates_to_add_to_cart.find?
      (fun date => decide (date ∈ availability_keys availability_map))

theorem find?_first {α : Type} (p : α → Bool) (l : List α) (d : α)
    (h : l.find? p = some d) :
    ∃ l₁ l₂, l = l₁ ++ d :: l₂ ∧ p d = true ∧ ∀ x ∈ l₁, p x = false := by
  induction l with
  | nil => simp [List.find?] at h
  | cons a t ih =>
    by_cases hpa : p a = true
    · rw [List.find?_cons_of_pos t hpa] at h
      refine ⟨[], t, ?_, ?_, ?_⟩
      · simp [Option.some_inj.mp h]
      · rw [← Option.some_inj.mp h]; exact hpa
      · intro x hx; cases hx
    · rw [List.find?_cons_of_neg t hpa] at h
      rcases ih h with ⟨l₁, l₂, heq, hpd, hall⟩
      refine ⟨a :: l₁, l₂, by rw [heq]; rfl, hpd, ?_⟩
      intro x hx
      rcases List.mem_cons.mp hx with hx | hx
      · subst hx; exact Bool.eq_false_iff.mpr hpa
      · exact hall x hx

theorem msn_sent_of_ne (e : Option String) (m : SmtpBehavior) (N S : Finset String)
    (h : S \ N ≠ ∅) : (maybe_send_notification e m N S).sent = true := by
  unfold maybe_send_notification
  split
  · rename_i hlen
    exact absurd ((sortedStrings_length_zero_iff _).mp hlen) h
  · split <;> rfl

theorem msn_delivered_none (m : SmtpBehavior) (N S : Finset String) :
    (maybe_send_notification none m N S).delivered = false := by
  unfold maybe_send_notification
  split
  · rfl
  · split <;> rfl

/-- C2: for every snapshot `S` and prior NotifiedSet `N`, the delta computed by
`maybe_send_notification` has `new` (`filtered_dates`) listing exactly `S − N`
sorted lexicographically ascending without duplicates and `already`
(`skipped_dates`) listing exactly `S ∩ N` sorted lexicographically ascending
without duplicates; in particular with `N = {07/10}` and
`S = {07/10, 07/11, 07/12}`, `new = [07/11, 07/12]` and `already = [07/10]`. -/
theorem c2_delta_correct (e : Option String) (m : SmtpBehavior) (N S : Finset String) :
    (List.Sorted (· ≤ ·) (maybe_send_notification e m N S).filtered_dates ∧
      (maybe_send_notification e m N S).filtered_dates.Nodup ∧
      ∀ x, x ∈ (maybe_send_notification e m N S).filtered_dates ↔ x ∈ S ∧ x ∉ N) ∧
    (List.Sorted (· ≤ ·) (maybe_send_notification e m N S).skipped_dates ∧
      (maybe_send_notification e m N S).skipped_dates.Nodup ∧
      ∀ x, x ∈ (maybe_send_notification e m N S).skipped_dates ↔ x ∈ S ∧ x ∈ N) ∧
    (maybe_send_notification e m {"07/10"} {"07/10", "07/11", "07/12"}).filtered_dates =
      ["07/11", "07/12"] ∧
    (maybe_send_notification e m {"07/10"} {"07/10", "07/11", "07/12"}).skipped_dates =
      ["07/10"] := by
  refine ⟨⟨?_, ?_, mem_msn_filtered e m N S⟩, ⟨?_, ?_, mem_msn_skipped e m N S⟩, ?_, ?_⟩
  · rw [msn_filtered]; exact sorted_sortedStrings _
  · rw [msn_filtered]; exact nodup_sortedStrings _
  · rw [msn_skipped]; exact sorted_sortedStrings _
  · rw [msn_skipped]; exact nodup_sortedStrings _
  · rw [msn_filtered]; decide
  · rw [msn_skipped]; decide

/-- C6: whenever the snapshot contains no label outside the NotifiedSet
(including the empty snapshot), the call makes no notifier call, raises
nothing, reports no new labels, and leaves the NotifiedSet exactly unchanged. -/
theorem c6_empty_delta_noop (e : Option String) (m : SmtpBehavior) (N S : Finset String)
    (h : S \ N = ∅) :
    (maybe_send_notification e m N S).sent = false ∧
    (maybe_send_notification e m N S).delivered = false ∧
    (maybe_send_notification e m N S).raised = false ∧
    (maybe_send_notification e m N S).state = N ∧
    (maybe_send_notification e m N S).filtered_dates = [] := by
  rw [msn_empty_branch e m N S h]
  exact ⟨rfl, rfl, rfl, rfl, sortedStrings_eq_nil _ h⟩

/-- Witness for C6 at the empty snapshot and empty NotifiedSet. -/
theorem c6_witness :
    (∅ : Finset String) \ (∅ : Finset String) = ∅ ∧
    ((maybe_send_notification none SmtpBehavior.succeeds ∅ ∅).sent = false ∧
      (maybe_send_notification none SmtpBehavior.succeeds ∅ ∅).delivered = false ∧
      (maybe_send_notification none SmtpBehavior.succeeds ∅ ∅).raised = false ∧
      (maybe_send_notification none SmtpBehavior.succeeds ∅ ∅).state = ∅ ∧
      (maybe_send_notification none SmtpBehavior.succeeds ∅ ∅).filtered_dates = []) :=
  ⟨by decide, c6_empty_delta_noop none SmtpBehavior.succeeds ∅ ∅ (by decide)⟩

/-- Counterexample to C1 as stated: with an empty NotifiedSet and snapshot
`{07/10}`, a raising `send_email` leaves the NotifiedSet unchanged (the commit
is ordered after the send, not before), and the label appears in `new` again on
a later call. -/
theorem c1_counterexample :
    (maybe_send_notification (some "a@b.com") SmtpBehavior.raises ∅ {"07/10"}).filtered_dates =
      ["07/10"] ∧
    (maybe_send_notification (some "a@b.com") SmtpBehavior.raises ∅ {"07/10"}).raised = true ∧
    (maybe_send_notification (some "a@b.com") SmtpBehavior.raises ∅ {"07/10"}).state = ∅ ∧
    "07/10" ∈ (maybe_send_notification none SmtpBehavior.succeeds
      (maybe_send_notification (some "a@b.com") SmtpBehavior.raises ∅ {"07/10"}).state
      {"07/10"}).filtered_dates := by
  decide

/-- C1 amended: the commit of new labels is ordered after the notification
send. When the delta `new` is non-empty a send is attempted; if the send
returns without raising the new labels are committed, but if it raises the
NotifiedSet is left unchanged and every one of those labels appears in `new`
again on a later call with a snapshot containing it. -/
theorem c1_commit_after_send (e : Option String) (m : SmtpBehavior) (N S : Finset String)
    (h : S \ N ≠ ∅) :
    (maybe_send_notification e m N S).sent = true ∧
    ((maybe_send_notification e m N S).raised = false →
      (maybe_send_notification e m N S).state = N ∪ S) ∧
    ((maybe_send_notification e m N S).raised = true →
      (maybe_send_notification e m N S).state = N ∧
      ∀ L ∈ S \ N,
        L ∈ (maybe_send_notification e m
          (maybe_send_notification e m N S).state S).filtered_dates) := by
  refine ⟨msn_sent_of_ne e m N S h,
    fun hr => msn_state_not_raised e m N S h hr,
    fun hr => ⟨msn_raised_state e m N S hr, ?_⟩⟩
  intro L hL
  rw [msn_raised_state e m N S hr, mem_msn_filtered]
  exact Finset.mem_sdiff.mp hL

/-- Witness for the amended C1 at `N = ∅`, `S = {07/10}`, with a configured
recipient and a raising transport. -/
theorem c1_witness :
    ({"07/10"} : Finset String) \ ∅ ≠ ∅ ∧
    ((maybe_send_notification (some "a@b.com") SmtpBehavior.raises ∅ {"07/10"}).sent = true ∧
      ((maybe_send_notification (some "a@b.com") SmtpBehavior.raises ∅ {"07/10"}).raised = false →
        (maybe_send_notification (some "a@b.com") SmtpBehavior.raises ∅ {"07/10"}).state =
          ∅ ∪ {"07/10"}) ∧
      ((maybe_send_notification (some "a@b.com") SmtpBehavior.raises ∅ {"07/10"}).raised = true →
        (maybe_send_notification (some "a@b.com") SmtpBehavior.raises ∅ {"07/10"}).state = ∅ ∧
        ∀ L ∈ ({"07/10"} : Finset String) \ ∅,
          L ∈ (maybe_send_notification (some "a@b.com") SmtpBehavior.raises
            (maybe_send_notification (some "a@b.com") SmtpBehavior.raises ∅ {"07/10"}).state
            {"07/10"}).filtered_dates)) :=
  ⟨by decide, c1_commit_after_send (some "a@b.com") SmtpBehavior.raises ∅ {"07/10"} (by decide)⟩

/-- Counterexample to C7 as stated: starting from the empty NotifiedSet with a
raising transport, calling update twice with the same snapshot `{07/10}` yields
`new = [07/10]` (not `∅`) on the second call, because the failed first call
never committed. -/
theorem c7_counterexample :
    (maybe_send_notification (some "a@b.com") SmtpBehavior.raises ∅ {"07/10"}).filtered_dates =
      ["07/10"] ∧
    (maybe_send_notification (some "a@b.com") SmtpBehavior.raises
      (maybe_send_notification (some "a@b.com") SmtpBehavior.raises ∅ {"07/10"}).state
      {"07/10"}).filtered_dates = ["07/10"] := by
  decide

/-- C7 amended: if the first update call with snapshot `S` completes without
raising, then an immediately repeated call with the same `S` yields
`new = ∅`. -/
theorem c7_idempotent_unless_raised (e₁ e₂ : Option String) (m₁ m₂ : SmtpBehavior)
    (N S : Finset String)
    (h : (maybe_send_notification e₁ m₁ N S).raised = false) :
    (maybe_send_notification e₂ m₂
      (maybe_send_notification e₁ m₁ N S).state S).filtered_dates = [] := by
  rw [msn_filtered]
  apply sortedStrings_eq_nil
  rw [Finset.sdiff_eq_empty_iff_subset]
  exact msn_not_raised_subset e₁ m₁ N S h

/-- Witness for the amended C7 at `N = ∅`, `S = {07/10}` and a succeeding
first send. -/
theorem c7_witness :
    (maybe_send_notification (some "a@b.com") SmtpBehavior.succeeds ∅ {"07/10"}).raised =
      false ∧
    (maybe_send_notification (some "a@b.com") SmtpBehavior.succeeds
      (maybe_send_notification (some "a@b.com") SmtpBehavior.succeeds ∅ {"07/10"}).state
      {"07/10"}).filtered_dates = [] :=
  ⟨by decide, c7_idempotent_unless_raised (some "a@b.com") (some "a@b.com")
    SmtpBehavior.succeeds SmtpBehavior.succeeds ∅ {"07/10"} (by decide)⟩

/-- Counterexample to C3 as stated: with a raising transport, the label 07/10
appears in the `new` output of two calls of one sequence started from the
empty NotifiedSet. -/
theorem c3_counterexample :
    List.countP (fun r => decide ("07/10" ∈ r.filtered_dates))
      (runFrom ∅ [⟨some "a@b.com", SmtpBehavior.raises, {"07/10"}⟩,
        ⟨some "a@b.com", SmtpBehavior.raises, {"07/10"}⟩]) = 2 := by
  decide

/-- C3 amended: across any finite sequence of update calls started from the
empty NotifiedSet, a label appears in the `new` output of at most one call
that completes without raising; calls whose notification send raises do not
commit and may therefore report the same label as new again. -/
theorem c3_at_most_once (L : String) (cs : List CallInput) :
    notifiedCount L (runFrom ∅ cs) ≤ 1 :=
  notifiedCount_le_one L cs ∅

/-- C8: every update call can only grow the NotifiedSet, and along any call
sequence started from the empty NotifiedSet the final NotifiedSet stays inside
the union of all labels seen in any snapshot passed so far. -/
theorem c8_notified_set_invariant :
    (∀ (e : Option String) (m : SmtpBehavior) (N S : Finset String),
      N ⊆ (maybe_send_notification e m N S).state) ∧
    (∀ cs : List CallInput, finalState ∅ cs ⊆ allLabels cs) := by
  refine ⟨msn_state_superset, fun cs => ?_⟩
  have h := finalState_sub cs ∅
  simpa using h

/-- Counterexample to C4 as stated: in each of the three modes some error
raised while fetching or parsing availability propagates out of the loop body:
a raising `driver.get` in permit mode, a raising end-of-cycle refresh lookup in
ferry mode, and a raising JSON decode/payload access in permit-JSON mode all
terminate the loop. -/
theorem c4_counterexample :
    (permit_loop_iter 10 true none none SmtpBehavior.succeeds BookStep.noDate ∅).1 =
      IterOutcome.crashed ∧
    (ferry_reservation_loop_iter 60 (some {"1:00 PM"}) none SmtpBehavior.succeeds true ∅).1 =
      IterOutcome.crashed ∧
    (permit_json_loop_iter 60 [MonthFetch.parseRaises] none SmtpBehavior.succeeds ∅).1 =
      IterOutcome.crashed := by
  decide

/-- C4 amended: errors raised inside the guarded regions are caught and the
loop continues - in permit mode an exception in the option-selection /
table-reading / notification block leads to a 1 second sleep and another
cycle, in ferry mode an exception in the schedule-reading block leads to a 60
second sleep and another cycle, and in permit-JSON mode per-month HTTP GET
failures and non-200 statuses never crash the cycle - but errors outside those
regions (initial page navigation in permit mode, refresh lookup in ferry mode,
JSON decoding and payload access in permit-JSON mode) are not contained. -/
theorem c4_guarded_containment (si : Nat) (e : Option String) (m : SmtpBehavior)
    (b : BookStep) (N : Finset String) (rr : Bool) (ms : List MonthFetch)
    (h : MonthFetch.parseRaises ∉ ms) :
    (permit_loop_iter si false none e m b N).1 = IterOutcome.continued 1 ∧
    (ferry_reservation_loop_iter si none e m rr N).1 = IterOutcome.continued 60 ∧
    (permit_json_loop_iter si ms e SmtpBehavior.succeeds N).1 ≠ IterOutcome.crashed := by
  refine ⟨rfl, rfl, ?_⟩
  rcases collect_months_some ms h with ⟨⟨backoff, dates⟩, hp⟩
  have hr : (maybe_send_notification e SmtpBehavior.succeeds N dates).raised = false :=
    msn_raised_false_of_send e SmtpBehavior.succeeds N dates (by cases e <;> rfl)
  simp [permit_json_loop_iter, hp, hr]

/-- Witness for the amended C4 with a month list containing a caught GET
failure and a non-200 status. -/
theorem c4_witness :
    MonthFetch.parseRaises ∉ [MonthFetch.getRaises, MonthFetch.badStatus] ∧
    ((permit_loop_iter 10 false none none SmtpBehavior.succeeds BookStep.noDate ∅).1 =
        IterOutcome.continued 1 ∧
      (ferry_reservation_loop_iter 10 none none SmtpBehavior.succeeds true ∅).1 =
        IterOutcome.continued 60 ∧
      (permit_json_loop_iter 10 [MonthFetch.getRaises, MonthFetch.badStatus] none
        SmtpBehavior.succeeds ∅).1 ≠ IterOutcome.crashed) :=
  ⟨by decide, c4_guarded_containment 10 none SmtpBehavior.succeeds BookStep.noDate ∅ true
    [MonthFetch.getRaises, MonthFetch.badStatus] (by decide)⟩

/-- Counterexample to C5 as stated: in permit mode with the default
`scrape_interval_secs = 10`, an error in the guarded scrape block is followed
by a 1 second sleep, which is not strictly longer than the normal interval. -/
theorem c5_counterexample :
    (permit_loop_iter 10 false none none SmtpBehavior.succeeds BookStep.noDate ∅).1 =
      IterOutcome.continued 1 ∧ ¬ (10 < 1) := by
  decide

/-- C5 amended: the error-path sleep is a fixed per-mode constant, independent
of the number of consecutive failures but not necessarily longer than the
normal interval - 1 second for permit-mode scrape errors, 60 seconds for
ferry-mode read errors and for each caught per-month GET failure in
permit-JSON mode - while a successful cycle sleeps the configured
`scrape_interval_secs` (ferry mode adds a fixed 2 seconds after the refresh,
permit-JSON mode adds the per-month backoff already slept). -/
theorem c5_flat_backoff (si : Nat) (e : Option String) (m : SmtpBehavior)
    (b : BookStep) (N S : Finset String) (rr : Bool) (d : Finset String)
    (h1 : (maybe_send_notification e m N S).raised = false)
    (h2 : b = BookStep.noDate) :
    (permit_loop_iter si false none e m b N).1 = IterOutcome.continued 1 ∧
    (ferry_reservation_loop_iter si none e m rr N).1 = IterOutcome.continued 60 ∧
    (permit_loop_iter si false (some S) e m b N).1 = IterOutcome.continued si ∧
    (ferry_reservation_loop_iter si (some S) e m false N).1 =
      IterOutcome.continued (si + 2) ∧
    (permit_json_loop_iter si [MonthFetch.getRaises, MonthFetch.ok d] e
      SmtpBehavior.succeeds N).1 = IterOutcome.continued (60 + si) := by
  subst h2
  have hr : (maybe_send_notification e SmtpBehavior.succeeds N d).raised = false :=
    msn_raised_false_of_send e SmtpBehavior.succeeds N d (by cases e <;> rfl)
  refine ⟨rfl, rfl, ?_, ?_, ?_⟩
  · simp [permit_loop_iter, h1]
  · simp [ferry_reservation_loop_iter, h1]
  · simp [permit_json_loop_iter, collect_months, hr]

/-- Witness for the amended C5 at the default 10 second interval with an
unconfigured recipient. -/
theorem c5_witness :
    (maybe_send_notification none SmtpBehavior.succeeds ∅ {"07/10"}).raised = false ∧
    BookStep.noDate = BookStep.noDate ∧
    ((permit_loop_iter 10 false none none SmtpBehavior.succeeds BookStep.noDate ∅).1 =
        IterOutcome.continued 1 ∧
      (ferry_reservation_loop_iter 10 none none SmtpBehavior.succeeds true ∅).1 =
        IterOutcome.continued 60 ∧
      (permit_loop_iter 10 false (some {"07/10"}) none SmtpBehavior.succeeds
        BookStep.noDate ∅).1 = IterOutcome.continued 10 ∧
      (ferry_reservation_loop_iter 10 (some {"07/10"}) none SmtpBehavior.succeeds false ∅).1 =
        IterOutcome.continued (10 + 2) ∧
      (permit_json_loop_iter 10 [MonthFetch.getRaises, MonthFetch.ok ∅] none
        SmtpBehavior.succeeds ∅).1 = IterOutcome.continued (60 + 10)) :=
  ⟨by decide, rfl, c5_flat_backoff 10 none SmtpBehavior.succeeds BookStep.noDate ∅ {"07/10"}
    true ∅ (by decide) rfl⟩

/-- C9: `maybe_add_to_cart_and_sleep` books exactly the first date of
`permit_dates_to_add_to_cart` present among the availability-map keys, and
books nothing exactly when no preferred date is present (in particular on an
empty map); concretely with preferences `[07/16, 07/17]` and a map containing
only `07/17` it selects `07/17`. -/
theorem c9_booking_selection (permit_dates_to_add_to_cart : List String)
    (availability_map : List (String × String)) :
    (∀ d, maybe_add_to_cart_and_sleep permit_dates_to_add_to_cart availability_map =
        some d →
      ∃ l₁ l₂, permit_dates_to_add_to_cart = l₁ ++ d :: l₂ ∧
        d ∈ availability_keys availability_map ∧
        ∀ x ∈ l₁, x ∉ availability_keys availability_map) ∧
    (maybe_add_to_cart_and_sleep permit_dates_to_add_to_cart availability_map = none ↔
      ∀ x ∈ permit_dates_to_add_to_cart, x ∉ availability_keys availability_map) ∧
    maybe_add_to_cart_and_sleep ["07/16", "07/17"] [("07/17", "xpath17")] =
      some "07/17" ∧
    maybe_add_to_cart_and_sleep ["07/16", "07/17"] [("07/18", "xpath18")] = none ∧
    maybe_add_to_cart_and_sleep ["07/16", "07/17"] [] = none := by
  refine ⟨?_, ?_, by decide, by decide, by decide⟩
  · intro d hd
    unfold maybe_add_to_cart_and_sleep at hd
    split at hd
    · exact absurd hd (by simp)
    · rcases find?_first _ _ _ hd with ⟨l₁, l₂, heq, hpd, hall⟩
      exact ⟨l₁, l₂, heq, of_decide_eq_true hpd,
        fun x hx => of_decide_eq_false (hall x hx)⟩
  · unfold maybe_add_to_cart_and_sleep
    split
    · rename_i hlen
      have hnil : availability_map = [] := List.length_eq_zero.mp hlen
      subst hnil
      exact iff_of_true rfl (fun x _ hc => by cases hc)
    · rw [List.find?_eq_none]
      constructor
      · intro h x hx
        exact fun hc => h x hx (decide_eq_true hc)
      · intro h x hx
        exact fun hc => h x hx (of_decide_eq_true hc)

/-- Witness for C9: applying the selection characterization at the concrete
preference list `[07/16, 07/17]` and a map containing only `07/17`. -/
theorem c9_witness :
    ∃ l₁ l₂, ["07/16", "07/17"] = l₁ ++ "07/17" :: l₂ ∧
      "07/17" ∈ availability_keys [("07/17", "xpath17")] ∧
      ∀ x ∈ l₁, x ∉ availability_keys [("07/17", "xpath17")] :=
  (c9_booking_selection ["07/16", "07/17"] [("07/17", "xpath17")]).1 "07/17" (by decide)

/-- C10: with no configured recipient the send step returns silently (no
delivery, no exception), yet every label of the snapshot not yet in the
NotifiedSet is committed and never appears in the `new` output of any later
call of the process. -/
theorem c10_unconfigured_email_commits (m : SmtpBehavior) (N S : Finset String)
    (L : String) (hL : L ∈ S) (_hN : L ∉ N) :
    (maybe_send_notification none m N S).delivered = false ∧
    (maybe_send_notification none m N S).raised = false ∧
    L ∈ (maybe_send_notification none m N S).state ∧
    ∀ cs : List CallInput, ∀ r ∈ runFrom (maybe_send_notification none m N S).state cs,
      L ∉ r.filtered_dates := by
  have hr : (maybe_send_notification none m N S).raised = false :=
    msn_raised_false_of_send none m N S rfl
  have hst : L ∈ (maybe_send_notification none m N S).state :=
    msn_not_raised_subset none m N S hr hL
  exact ⟨msn_delivered_none m N S, hr, hst,
    fun cs => mem_runFrom_not_filtered L cs _ hst⟩

/-- Witness for C10 at `N = ∅`, `S = {07/10}` with a (never consulted) raising
transport. -/
theorem c10_witness :
    "07/10" ∈ ({"07/10"} : Finset String) ∧ "07/10" ∉ (∅ : Finset String) ∧
    ((maybe_send_notification none SmtpBehavior.raises ∅ {"07/10"}).delivered = false ∧
      (maybe_send_notification none SmtpBehavior.raises ∅ {"07/10"}).raised = false ∧
      "07/10" ∈ (maybe_send_notification none SmtpBehavior.raises ∅ {"07/10"}).state ∧
      ∀ cs : List CallInput,
        ∀ r ∈ runFrom (maybe_send_notification none SmtpBehavior.raises ∅ {"07/10"}).state cs,
          "07/10" ∉ r.filtered_dates) :=
  ⟨by decide, by decide, c10_unconfigured_email_commits SmtpBehavior.raises ∅ {"07/10"}
    "07/10" (by decide) (by decide)⟩

end PermitScrape
